import Mathlib

/-!
# AutoCheckinn: the attendance automation engine of `server.js`

A shallow embedding of the decision logic of `src/server.js` (session refresh,
per-day guard, geofence test, check-in window, cron gate, check-out payload)
together with theorems about it.

Modelling conventions

* JavaScript numbers that hold coordinates and distances are rationals (every
  finite double is one); `+ - * /` are exact, the transcendental functions of
  `Math` are a parameter (`JSMath`).
* Instants are integers: milliseconds since the epoch, as `Date.now()` returns
  them.  A timestamp string produced by `toISOString()` is represented by the
  instant it denotes (`new Date(s)` gives that instant back); its text is
  produced by `toISOString` below where the program looks at the characters.
* The outside world is an `Env`: the configuration, successive readings of the
  system clock and the replies of the remote API.  `Sys` is what the program
  changes: the module variable `state`, how many clock readings were taken and
  the requests sent so far.  `async` functions run one after another.
-/

namespace AutoCheckinn

/-! ## Configuration and environment -/

/-- Results of the functions of the `Math` object that `haversineDistance` calls. -/
structure JSMath where
  PI : ℚ
  sin : ℚ → ℚ
  cos : ℚ → ℚ
  sqrt : ℚ → ℚ
  atan2 : ℚ → ℚ → ℚ

/-- The object `CONFIG.office`. -/
structure Office where
  lat : ℚ
  lng : ℚ
  radius : ℚ

/-- The object `CONFIG.schedule`; `checkinTime` is kept as the two numbers that
`CONFIG.schedule.checkinTime.split(':').map(Number)` yields (`ciH`, `ciM`). -/
structure Schedule where
  ciH : Int
  ciM : Int

/-- The object `CONFIG.features`. -/
structure Features where
  requireLocation : Bool
  locationTimeoutMs : Int

/-- The parts of `CONFIG` that the decision logic reads. -/
structure Config where
  office : Office
  schedule : Schedule
  features : Features

/-- Outcome of `axios.post(CONFIG.urls.loginUrl, ...)`: either the promise is
rejected with an error carrying `message`, or it resolves with a response whose
`data?.data?.access_token` and `headers['set-cookie']` are as given. -/
inductive LoginReply where
  | rejected (message : String)
  | resolved (access_token : Option String) (setCookie : Option (List String))
  deriving DecidableEq

/-- Outcome of `axios.post(CONFIG.urls.attendanceUrl, ...)`. -/
inductive PostReply where
  | rejected (message : String)
  | resolved (status : Nat) (data : String)
  deriving DecidableEq

/-- Everything the program reads from outside itself. -/
structure Env where
  CONFIG : Config
  math : JSMath
  /-- Offset of local time from UTC in milliseconds (no clock change). -/
  tzOffsetMs : Int
  /-- The n-th reading of the system clock (`new Date()` or `Date.now()`). -/
  clock : Nat → Int
  /-- Reply to a login request sent when `n` requests were sent before it. -/
  loginReply : Nat → LoginReply
  /-- Reply to an attendance request sent when `n` requests were sent before it. -/
  postReply : Nat → PostReply

/-! ## State -/

inductive Level where
  | info | success | warn | error
  deriving DecidableEq, Repr

/-- The messages passed to `log`, with the values interpolated into them. -/
inductive LogMessage where
  /-- 'Attempting login...' -/
  | attemptingLogin
  /-- 'Login successful' with `hasCookies` -/
  | loginSuccessful (hasCookies : Bool)
  /-- 'Login failed' with the error message -/
  | loginFailed (message : String)
  /-- 'Check-in aborted — could not establish session' -/
  | checkinAborted
  /-- 'Check-in skipped — already checked in today' -/
  | checkinSkipped
  /-- 'Performing check-in (triggered by: ...)...' -/
  | performingCheckin (triggeredBy : String)
  /-- 'Check-in successful' -/
  | checkinSuccessful (status : Nat) (data : String)
  /-- 'Check-in failed' -/
  | checkinFailed (message : String)
  /-- 'Check-out aborted — could not establish session' -/
  | checkoutAborted
  /-- 'Check-out skipped — already checked out today' -/
  | checkoutSkipped
  /-- 'Performing check-out (triggered by: ...)...' -/
  | performingCheckout (triggeredBy : String)
  /-- 'Check-out successful' -/
  | checkoutSuccessful (status : Nat) (data : String)
  /-- 'Check-out failed' -/
  | checkoutFailed (message : String)
  /-- 'Location received — ...m from office, in perimeter: ...' -/
  | locationReceived (distance : Int) (inPerimeter : Bool) (lat lng : ℚ)
  /-- '[CRON] Check-in triggered at ...' -/
  | cronCheckinTriggered
  /-- '[CRON] Check-in skipped — no recent in-perimeter location ping';
  `locationAge` is `none` for `Infinity`. -/
  | cronCheckinSkipped (locationAge : Option Int) (confirmed : Bool)
  /-- '[CRON] Check-out triggered at ...' -/
  | cronCheckoutTriggered

structure LogEntry where
  time : Int
  level : Level
  message : LogMessage

/-- The object stored in `state.lastLocation`, with the fields that
`handleLocationTriggeredCheckin` assigns (`lat`, `lng`, `timestamp`,
`distance`). The comment on the declaration of `state` lists an `accuracy`
field and no `distance`; no code stores `accuracy`. -/
structure Location where
  lat : ℚ
  lng : ℚ
  timestamp : Int
  distance : Int

/-- The module variable `state`. -/
structure State where
  sessionToken : Option String
  sessionCookies : Option String
  sessionExpiry : Option Int
  lastCheckin : Option Int
  lastCheckout : Option Int
  lastLocation : Option Location
  locationConfirmed : Bool
  log : List LogEntry

/-- The fields of the attendance payload other than the static `breaks` catalogue
and the `shift` object of `config.json`. `mark_checkout` is absent from the
base payload (`none`). -/
structure Payload where
  is_checkin_time : Bool
  checkin_time : List Char
  checkin_address : List Char
  is_checkout_time : Bool
  checkout_time : List Char
  checkout_address : List Char
  is_break : Bool
  break_time : List Char
  use_location_for_mark_attendance : Bool
  is_pic_required : Bool
  is_mark_attendance_allowed : Bool
  mark_checkin : Bool
  mark_checkout : Option Bool
  deriving DecidableEq

/-- A request handed to `axios.post`. -/
inductive Request where
  /-- The login exchange of `login`. -/
  | login
  /-- The submission of `postAttendance`, with the `authorization` and `cookie`
  headers that `buildAuthHeaders` adds. -/
  | attendance (payload : Payload) (authorization cookie : Option String)
  deriving DecidableEq

/-- What the program changes while it runs. -/
structure Sys where
  state : State
  /-- Number of clock readings taken so far. -/
  reads : Nat
  /-- Requests sent so far, the most recent first. -/
  sent : List Request

/-- Truthiness of a value that is `null` or a string. -/
def truthyStr : Option String → Bool
  | none => false
  | some s => s != ""

/-- One reading of the system clock: `Date.now()` and `new Date()`. -/
def Date_now (env : Env) (w : Sys) : Int × Sys :=
  (env.clock w.reads, { w with reads := w.reads + 1 })

/-! ## Utilities -/

/-- The function `log`: the entry goes to the front, the list is cut to 100. -/
def log (env : Env) (level : Level) (message : LogMessage) (w : Sys) : Sys :=
  let time := Date_now env w
  let entry : LogEntry := { time := time.1, level := level, message := message }
  let l := entry :: w.state.log
  let l := if l.length > 100 then l.dropLast else l
  { time.2 with state := { w.state with log := l } }

/-- The function `haversineDistance`. -/
def haversineDistance (m : JSMath) (lat1 lng1 lat2 lng2 : ℚ) : ℚ :=
  let R : ℚ := 6371000
  let φ1 := (lat1 * m.PI) / 180
  let φ2 := (lat2 * m.PI) / 180
  let Δφ := ((lat2 - lat1) * m.PI) / 180
  let Δl := ((lng2 - lng1) * m.PI) / 180
  let a := m.sin (Δφ / 2) ^ 2 + m.cos φ1 * m.cos φ2 * m.sin (Δl / 2) ^ 2
  R * 2 * m.atan2 (m.sqrt a) (m.sqrt (1 - a))

/-- The function `Math.round`: the nearest integer, halves going up. -/
def Math_round (x : ℚ) : Int := ⌊x + 1 / 2⌋

/-- Result of `isInOfficePerimeter`. -/
structure Perimeter where
  inPerimeter : Bool
  distance : Int
  deriving DecidableEq

/-- The function `isInOfficePerimeter`. -/
def isInOfficePerimeter (env : Env) (lat lng : ℚ) : Perimeter :=
  let dist := haversineDistance env.math lat lng env.CONFIG.office.lat env.CONFIG.office.lng
  { inPerimeter := decide (dist ≤ env.CONFIG.office.radius), distance := Math_round dist }

/-! ## Auth -/

/-- The function `login`. -/
def login (env : Env) (w : Sys) : Bool × Sys :=
  let w := log env .info .attemptingLogin w
  let reply := env.loginReply w.sent.length
  let w := { w with sent := Request.login :: w.sent }
  match reply with
  | .rejected message => (false, log env .error (.loginFailed message) w)
  | .resolved token cookies =>
    if !truthyStr token then
      (false, log env .error (.loginFailed "No access_token in login response.") w)
    else
      let joined := cookies.map fun cs =>
        String.intercalate "; " (cs.map fun c => c.takeWhile (· != ';'))
      let now := Date_now env w
      let w := { now.2 with state := { w.state with
        sessionToken := token
        sessionCookies := joined
        sessionExpiry := some (now.1 + 6 * 24 * 60 * 60 * 1000) } }
      (true, log env .success (.loginSuccessful cookies.isSome) w)

/-- The function `ensureSession`. `Date.now()` is read only when
`state.sessionExpiry` is truthy. -/
def ensureSession (env : Env) (w : Sys) : Bool × Sys :=
  if !truthyStr w.state.sessionToken && !truthyStr w.state.sessionCookies then login env w
  else
    match w.state.sessionExpiry with
    | none => (true, w)
    | some sessionExpiry =>
      if sessionExpiry = 0 then (true, w)
      else
        let now := Date_now env w
        if now.1 > sessionExpiry - 300000 then login env now.2 else (true, now.2)

/-- The function `buildAuthHeaders`: the `authorization` and `cookie` headers. -/
def buildAuthHeaders (s : State) : Option String × Option String :=
  (if truthyStr s.sessionToken then s.sessionToken else none,
   if truthyStr s.sessionCookies then s.sessionCookies else none)

/-! ## Dates -/

def msPerDay : Int := 86400000

/-- Local time of an instant. -/
def LocalTime (env : Env) (t : Int) : Int := t + env.tzOffsetMs

/-- Day number of a time value (`floor(t / msPerDay)`). -/
def Day (t : Int) : Int := t / msPerDay

/-- Time within the day of a time value (`t modulo msPerDay`). -/
def TimeWithinDay (t : Int) : Int := t % msPerDay

/-- The method `toDateString`: it prints the calendar date of the local time of
the instant (weekday, month, day, year). Two such texts are equal exactly when
the local day numbers are, so the text is represented by that day number. -/
def toDateString (env : Env) (t : Int) : Int := Day (LocalTime env t)

/-- The method `setHours(hour, min, sec, ms)` on a date holding instant `t`: the
local day of `t` is kept, the time within the day is replaced; minutes outside
0..59 carry into the hours and the days. Returns the new instant. -/
def setHours (env : Env) (t : Int) (hour min sec ms : Int) : Int :=
  Day (LocalTime env t) * msPerDay + (hour * 3600000 + min * 60000 + sec * 1000 + ms)
    - env.tzOffsetMs

/-- Year, month (1..12) and day of month of a day number counted from
1970-01-01, in the proleptic Gregorian calendar. -/
def civilFromDays (z : Int) : Int × Int × Int :=
  let z := z + 719468
  let era := z / 146097
  let doe := z % 146097
  let yoe := (doe - doe / 1460 + doe / 36524 - doe / 146096) / 365
  let doy := doe - (365 * yoe + yoe / 4 - yoe / 100)
  let mp := (5 * doy + 2) / 153
  let d := doy - (153 * mp + 2) / 5 + 1
  let m := if mp < 10 then mp + 3 else mp - 9
  let y := yoe + era * 400
  (if m ≤ 2 then y + 1 else y, m, d)

/-- The last decimal digit of a number, as a character. -/
def digit (n : Int) : Char :=
  match (n % 10).toNat with
  | 0 => '0' | 1 => '1' | 2 => '2' | 3 => '3' | 4 => '4'
  | 5 => '5' | 6 => '6' | 7 => '7' | 8 => '8' | _ => '9'

def pad2 (n : Int) : List Char := [digit (n / 10), digit n]

def pad3 (n : Int) : List Char := [digit (n / 100), digit (n / 10), digit n]

def pad4 (n : Int) : List Char := [digit (n / 1000), digit (n / 100), digit (n / 10), digit n]

def pad6 (n : Int) : List Char :=
  [digit (n / 100000), digit (n / 10000), digit (n / 1000), digit (n / 100), digit (n / 10),
    digit n]

/-- Year of an ISO timestamp: four digits for the years 0..9999, otherwise a sign
and six digits. -/
def isoYear (y : Int) : List Char :=
  if 0 ≤ y ∧ y ≤ 9999 then pad4 y
  else (if y < 0 then '-' else '+') :: pad6 (if y < 0 then -y else y)

/-- The part 'YYYY-MM-DD' of `toISOString`. -/
def isoDate (t : Int) : List Char :=
  let c := civilFromDays (Day t)
  isoYear c.1 ++ '-' :: pad2 c.2.1 ++ '-' :: pad2 c.2.2

/-- The part 'HH:MM:SS' of `toISOString`. -/
def isoTime (t : Int) : List Char :=
  let tod := TimeWithinDay t
  pad2 (tod / 3600000) ++ ':' :: pad2 (tod / 60000 % 60) ++ ':' :: pad2 (tod / 1000 % 60)

/-- The part 'sss' of `toISOString`. -/
def isoMillis (t : Int) : List Char := pad3 (t % 1000)

/-- The method `toISOString`: 'YYYY-MM-DDTHH:MM:SS.sssZ', in UTC. -/
def toISOString (t : Int) : List Char :=
  isoDate t ++ 'T' :: isoTime t ++ '.' :: isoMillis t ++ ['Z']

/-- The string method `replace(a, b)` with a one-character pattern: the first
occurrence is replaced. -/
def replace (a b : Char) : List Char → List Char
  | [] => []
  | c :: cs => if c = a then b :: cs else c :: replace a b cs

/-- The string method `substring(i, j)` for `i ≤ j`. -/
def substring (s : List Char) (i j : Nat) : List Char := (s.take j).drop i

/-! ## Attendance payload -/

/-- The function `getBaseAttendancePayload`. -/
def getBaseAttendancePayload : Payload :=
  { is_checkin_time := false
    checkin_time := []
    checkin_address := []
    is_checkout_time := false
    checkout_time := []
    checkout_address := []
    is_break := false
    break_time := []
    use_location_for_mark_attendance := false
    is_pic_required := false
    is_mark_attendance_allowed := true
    mark_checkin := false
    mark_checkout := none }

/-- The function `postAttendance`: one request to the attendance endpoint. -/
def postAttendance (env : Env) (payload : Payload) (w : Sys) : PostReply × Sys :=
  let headers := buildAuthHeaders w.state
  (env.postReply w.sent.length,
   { w with sent := Request.attendance payload headers.1 headers.2 :: w.sent })

/-! ## Check-in / Check-out -/

/-- Result object of `performCheckin` and `performCheckout`; an absent field is
`none`. -/
structure CheckResult where
  success : Bool
  reason : Option String
  time : Option Int
  data : Option String
  deriving DecidableEq

/-- The test `last && new Date(last).toDateString() === todayStr`. -/
def sameDateString (env : Env) (last : Option Int) (today : Int) : Bool :=
  match last with
  | none => false
  | some t => decide (toDateString env t = toDateString env today)

/-- The function `performCheckin`. -/
def performCheckin (env : Env) (triggeredBy : String) (w : Sys) : CheckResult × Sys :=
  let session := ensureSession env w
  if !session.1 then
    ({ success := false, reason := some "auth_failed", time := none, data := none },
     log env .error .checkinAborted session.2)
  else
    let today := Date_now env session.2
    if sameDateString env today.2.state.lastCheckin today.1 then
      ({ success := false, reason := some "already_checked_in", time := none, data := none },
       log env .warn .checkinSkipped today.2)
    else
      let w := log env .info (.performingCheckin triggeredBy) today.2
      let payload := { getBaseAttendancePayload with mark_checkin := true }
      let response := postAttendance env payload w
      match response.1 with
      | .resolved status data =>
        let now := Date_now env response.2
        let w := { now.2 with state := { now.2.state with lastCheckin := some now.1 } }
        ({ success := true, reason := none, time := some now.1, data := some data },
         log env .success (.checkinSuccessful status data) w)
      | .rejected message =>
        ({ success := false, reason := some message, time := none, data := none },
         log env .error (.checkinFailed message) response.2)

/-- The value assigned to `payload.checkin_time` in `performCheckout`; `now` is
the clock reading used when no check-in is recorded. -/
def checkoutCheckinTime (lastCheckin : Option Int) (now : Int) : List Char :=
  match lastCheckin with
  | some t => substring (replace 'T' ' ' (toISOString t)) 0 19
  | none => substring (replace 'T' ' ' (toISOString now)) 0 19

/-- The function `performCheckout`. The clock is read for `checkin_time` only
when `state.lastCheckin` is not set. -/
def performCheckout (env : Env) (triggeredBy : String) (w : Sys) : CheckResult × Sys :=
  let session := ensureSession env w
  if !session.1 then
    ({ success := false, reason := some "auth_failed", time := none, data := none },
     log env .error .checkoutAborted session.2)
  else
    let today := Date_now env session.2
    if sameDateString env today.2.state.lastCheckout today.1 then
      ({ success := false, reason := some "already_checked_out", time := none, data := none },
       log env .warn .checkoutSkipped today.2)
    else
      let w := log env .info (.performingCheckout triggeredBy) today.2
      let fallback := if w.state.lastCheckin.isSome then (0, w) else Date_now env w
      let payload := { getBaseAttendancePayload with
        is_checkin_time := true
        checkin_time := checkoutCheckinTime w.state.lastCheckin fallback.1
        mark_checkout := some true }
      let response := postAttendance env payload fallback.2
      match response.1 with
      | .resolved status data =>
        let now := Date_now env response.2
        let w := { now.2 with state := { now.2.state with lastCheckout := some now.1 } }
        ({ success := true, reason := none, time := some now.1, data := some data },
         log env .success (.checkoutSuccessful status data) w)
      | .rejected message =>
        ({ success := false, reason := some message, time := none, data := none },
         log env .error (.checkoutFailed message) response.2)

/-! ## Location-gated logic -/

/-- The `reason` of a result of `handleLocationTriggeredCheckin`. -/
inductive LocationReason where
  /-- The text 'Outside perimeter (${distance}m away, max: ${CONFIG.office.radius}m)'. -/
  | outsidePerimeter (distance : Int) (max : ℚ)
  /-- The text 'In perimeter but outside check-in time window'. -/
  | outsideWindow
  /-- The `reason` of the result of `performCheckin`, spread into the result. -/
  | ofCheckin (reason : String)
  deriving DecidableEq

/-- Result object of `handleLocationTriggeredCheckin`; an absent field is `none`. -/
structure LocationResult where
  triggered : Bool
  action : Option String
  distance : Option Int
  reason : Option LocationReason
  success : Option Bool
  time : Option Int
  data : Option String
  deriving DecidableEq

/-- The window test of `handleLocationTriggeredCheckin` at the instant `now`:
`windowStart` and `windowEnd` are copies of `now` moved by `setHours`. -/
def isWithinCheckinWindow (env : Env) (now : Int) : Bool :=
  let ciH := env.CONFIG.schedule.ciH
  let ciM := env.CONFIG.schedule.ciM
  let windowStart := setHours env now ciH (ciM - 30) 0 0
  let windowEnd := setHours env now ciH (ciM + 60) 0 0
  decide (now ≥ windowStart) && decide (now ≤ windowEnd)

/-- The function `handleLocationTriggeredCheckin`. -/
def handleLocationTriggeredCheckin (env : Env) (lat lng : ℚ) (w : Sys) : LocationResult × Sys :=
  let p := isInOfficePerimeter env lat lng
  let w := log env .info (.locationReceived p.distance p.inPerimeter lat lng) w
  let stamp := Date_now env w
  let w := { stamp.2 with state := { stamp.2.state with
    lastLocation := some { lat := lat, lng := lng, timestamp := stamp.1, distance := p.distance }
    locationConfirmed := p.inPerimeter } }
  if !p.inPerimeter then
    ({ triggered := false, action := none, distance := none,
       reason := some (.outsidePerimeter p.distance env.CONFIG.office.radius),
       success := none, time := none, data := none }, w)
  else
    let now := Date_now env w
    if isWithinCheckinWindow env now.1 then
      let result := performCheckin env "location_ping" now.2
      ({ triggered := true, action := some "checkin", distance := some p.distance,
         reason := result.1.reason.map .ofCheckin,
         success := some result.1.success, time := result.1.time, data := result.1.data },
       result.2)
    else
      ({ triggered := false, action := none, distance := some p.distance,
         reason := some .outsideWindow, success := none, time := none, data := none }, now.2)

/-! ## Cron jobs -/

/-- The callback of the check-in cron job of `scheduleCrons`. The first
component is the result of the `performCheckin` call that the tick awaited,
`none` when the tick made no such call. `Date.now()` is read only when
`state.lastLocation` is set; otherwise `locationAge` is `Infinity`. -/
def cronCheckinTick (env : Env) (w : Sys) : Option CheckResult × Sys :=
  let w := log env .info .cronCheckinTriggered w
  if env.CONFIG.features.requireLocation then
    match w.state.lastLocation with
    | some lastLocation =>
      let now := Date_now env w
      let locationAge := now.1 - lastLocation.timestamp
      if now.2.state.locationConfirmed
          && decide (locationAge < env.CONFIG.features.locationTimeoutMs) then
        let result := performCheckin env "cron+location" now.2
        (some result.1, result.2)
      else
        (none, log env .warn
          (.cronCheckinSkipped (some (Math_round (locationAge / 1000)))
            now.2.state.locationConfirmed) now.2)
    | none =>
      (none, log env .warn (.cronCheckinSkipped none w.state.locationConfirmed) w)
  else
    let result := performCheckin env "cron" w
    (some result.1, result.2)

/-- The callback of the check-out cron job of `scheduleCrons`. -/
def cronCheckoutTick (env : Env) (w : Sys) : CheckResult × Sys :=
  performCheckout env "cron" (log env .info .cronCheckoutTriggered w)

/-- Sequential `performCheckin` calls, one per entry of `triggers`: the result of
each call with the system as that call left it. -/
def runCheckins (env : Env) : List String → Sys → List (CheckResult × Sys)
  | [], _ => []
  | triggeredBy :: rest, w =>
    let r := performCheckin env triggeredBy w
    r :: runCheckins env rest r.2

/-- Number of attendance submissions among the requests sent so far. -/
def submissions (w : Sys) : Nat :=
  (w.sent.filter fun r => match r with
    | .attendance _ _ _ => true
    | .login => false).length

/-! ## A concrete environment

The values that `server.js` starts from, and a rational stand-in for the `Math`
library, used to evaluate the program on concrete inputs. -/

/-- The initial value of the module variable `state`. -/
def initialState : State :=
  { sessionToken := none
    sessionCookies := none
    sessionExpiry := none
    lastCheckin := none
    lastCheckout := none
    lastLocation := none
    locationConfirmed := false
    log := [] }

/-- Newton steps towards the integer square root of `n`, from `x` downwards. -/
def isqrtFrom : Nat → Nat → Nat → Nat
  | 0, _, x => x
  | fuel + 1, n, x =>
    let y := (x + n / x) / 2
    if y < x then isqrtFrom fuel n y else x

/-- Integer square root (for numbers below 2 ^ 200). -/
def isqrt (n : Nat) : Nat := if n = 0 then 0 else isqrtFrom 200 n n

/-- Square root to 15 decimal places. -/
def approxSqrt (x : ℚ) : ℚ := (isqrt ⌊x * 10 ^ 30⌋.toNat : ℚ) / 10 ^ 15

/-- Arc tangent of a small ratio. -/
def approxAtan (r : ℚ) : ℚ := r - r ^ 3 / 3 + r ^ 5 / 5 - r ^ 7 / 7

/-- The constant `Math.PI` to 15 decimal places. -/
def approxPI : ℚ := 3141592653589793 / 10 ^ 15

/-- Rational approximations of the `Math` functions, accurate for the small
angles that distances of a few kilometres give. -/
def approxMath : JSMath :=
  { PI := approxPI
    sin := fun x => x - x ^ 3 / 6 + x ^ 5 / 120 - x ^ 7 / 5040
    cos := fun x => 1 - x ^ 2 / 2 + x ^ 4 / 24 - x ^ 6 / 720
    sqrt := approxSqrt
    atan2 := fun y x =>
      if x > 0 then approxAtan (y / x)
      else if y = 0 then (if x < 0 then approxPI else 0)
      else if y > 0 then approxPI / 2 - approxAtan (x / y)
      else -(approxPI / 2) - approxAtan (x / y) }

/-- The defaults of `CONFIG`: office at (0.0, 0.0) with radius 200, check-in at
'09:00', location timeout 300000 ms; `REQUIRE_LOCATION` set to 'true'. -/
def defaultConfig : Config :=
  { office := { lat := 0, lng := 0, radius := 200 }
    schedule := { ciH := 9, ciM := 0 }
    features := { requireLocation := true, locationTimeoutMs := 300000 } }

/-- An environment with the default configuration in the time zone
'Asia/Karachi' (UTC+5). -/
def karachi (clock : Nat → Int) (loginReply : Nat → LoginReply)
    (postReply : Nat → PostReply) : Env :=
  { CONFIG := defaultConfig
    math := approxMath
    tzOffsetMs := 18000000
    clock := clock
    loginReply := loginReply
    postReply := postReply }

/-- The instant 2026-11-04T04:00:00.000Z, 09:00 in Karachi. -/
def nineOClock : Int := 1793764800000

/-- A clock that starts at `start` and advances one second per reading, for ten
minutes. -/
def tickingClock (start : Int) (n : Nat) : Int := start + 1000 * (min n 600 : Nat)

/-- A system that holds a session token expiring at `sessionExpiry`. -/
def loggedIn (sessionExpiry : Int) : Sys :=
  { state := { initialState with
      sessionToken := some "token"
      sessionExpiry := some sessionExpiry }
    reads := 0
    sent := [] }

/-- A login reply without a token. -/
def loginDown : Nat → LoginReply := fun _ => LoginReply.rejected "Network Error"

/-- An attendance endpoint that accepts every submission. -/
def postUp : Nat → PostReply := fun _ => PostReply.resolved 200 "ok"

/-- An attendance endpoint that rejects every submission. -/
def postDown : Nat → PostReply := fun _ => PostReply.rejected "Network Error"

/-- An attendance endpoint that rejects the first submission only. -/
def postDownOnce : Nat → PostReply := fun n =>
  if n = 0 then PostReply.rejected "Network Error" else PostReply.resolved 200 "ok"

/-- A system that holds a session and a check-in recorded at `t0`. -/
def checkedIn (t0 sessionExpiry : Int) : Sys :=
  { state := { initialState with
      sessionToken := some "token"
      sessionExpiry := some sessionExpiry
      lastCheckin := some t0 }
    reads := 0
    sent := [] }

/-- A system with a session and an in-perimeter location sample taken at
`timestamp`. -/
def located (timestamp : Int) : Sys :=
  { state := { initialState with
      sessionToken := some "token"
      sessionExpiry := some (timestamp + 518400000)
      lastLocation := some { lat := 0, lng := 0, timestamp := timestamp, distance := 0 }
      locationConfirmed := true }
    reads := 0
    sent := [] }

/-- Values of the `Math` functions at 0 and 1 that every implementation returns
exactly: `Math.sin(0)`, `Math.sqrt(0)`, `Math.sqrt(1)` and `Math.atan2(0, x)`
for positive `x`. -/
structure SpecialValues (m : JSMath) : Prop where
  sin_zero : m.sin 0 = 0
  sqrt_zero : m.sqrt 0 = 0
  sqrt_one : m.sqrt 1 = 1
  atan2_zero : ∀ x : ℚ, 0 < x → m.atan2 0 x = 0

/-! ## Frame lemmas -/

section Frame

variable (env : Env)

@[simp] theorem Date_now_fst (w : Sys) : (Date_now env w).1 = env.clock w.reads := rfl

@[simp] theorem Date_now_state (w : Sys) : (Date_now env w).2.state = w.state := rfl

@[simp] theorem Date_now_sent (w : Sys) : (Date_now env w).2.sent = w.sent := rfl

@[simp] theorem Date_now_reads (w : Sys) : (Date_now env w).2.reads = w.reads + 1 := rfl

@[simp] theorem log_sent (level : Level) (message : LogMessage) (w : Sys) :
    (log env level message w).sent = w.sent := rfl

@[simp] theorem log_reads (level : Level) (message : LogMessage) (w : Sys) :
    (log env level message w).reads = w.reads + 1 := rfl

@[simp] theorem log_sessionToken (level : Level) (message : LogMessage) (w : Sys) :
    (log env level message w).state.sessionToken = w.state.sessionToken := rfl

@[simp] theorem log_sessionCookies (level : Level) (message : LogMessage) (w : Sys) :
    (log env level message w).state.sessionCookies = w.state.sessionCookies := rfl

@[simp] theorem log_sessionExpiry (level : Level) (message : LogMessage) (w : Sys) :
    (log env level message w).state.sessionExpiry = w.state.sessionExpiry := rfl

@[simp] theorem log_lastCheckin (level : Level) (message : LogMessage) (w : Sys) :
    (log env level message w).state.lastCheckin = w.state.lastCheckin := rfl

@[simp] theorem log_lastCheckout (level : Level) (message : LogMessage) (w : Sys) :
    (log env level message w).state.lastCheckout = w.state.lastCheckout := rfl

@[simp] theorem log_lastLocation (level : Level) (message : LogMessage) (w : Sys) :
    (log env level message w).state.lastLocation = w.state.lastLocation := rfl

@[simp] theorem log_locationConfirmed (level : Level) (message : LogMessage) (w : Sys) :
    (log env level message w).state.locationConfirmed = w.state.locationConfirmed := rfl

theorem login_sent (w : Sys) : (login env w).2.sent = Request.login :: w.sent := by
  unfold login
  dsimp only
  split
  · rfl
  · split <;> rfl

theorem login_lastCheckin (w : Sys) :
    (login env w).2.state.lastCheckin = w.state.lastCheckin := by
  unfold login
  dsimp only
  split
  · rfl
  · split <;> rfl

theorem login_lastCheckout (w : Sys) :
    (login env w).2.state.lastCheckout = w.state.lastCheckout := by
  unfold login
  dsimp only
  split
  · rfl
  · split <;> rfl

theorem login_lastLocation (w : Sys) :
    (login env w).2.state.lastLocation = w.state.lastLocation := by
  unfold login
  dsimp only
  split
  · rfl
  · split <;> rfl

theorem login_locationConfirmed (w : Sys) :
    (login env w).2.state.locationConfirmed = w.state.locationConfirmed := by
  unfold login
  dsimp only
  split
  · rfl
  · split <;> rfl

theorem login_reads (w : Sys) : w.reads ≤ (login env w).2.reads := by
  unfold login
  dsimp only
  split
  · simp only [log_reads]; omega
  · split <;> simp only [log_reads, Date_now_reads] <;> omega

theorem ensureSession_sent (w : Sys) :
    (ensureSession env w).2.sent = w.sent ∨ (ensureSession env w).2.sent = Request.login :: w.sent := by
  unfold ensureSession
  split
  · exact Or.inr (login_sent env w)
  · split
    · exact Or.inl rfl
    · split
      · exact Or.inl rfl
      · dsimp only
        split
        · exact Or.inr (login_sent env _)
        · exact Or.inl rfl

theorem ensureSession_lastCheckin (w : Sys) :
    (ensureSession env w).2.state.lastCheckin = w.state.lastCheckin := by
  unfold ensureSession
  split
  · exact login_lastCheckin env w
  · split
    · rfl
    · split
      · rfl
      · dsimp only
        split
        · exact login_lastCheckin env _
        · rfl

theorem ensureSession_lastCheckout (w : Sys) :
    (ensureSession env w).2.state.lastCheckout = w.state.lastCheckout := by
  unfold ensureSession
  split
  · exact login_lastCheckout env w
  · split
    · rfl
    · split
      · rfl
      · dsimp only
        split
        · exact login_lastCheckout env _
        · rfl

theorem ensureSession_reads (w : Sys) : w.reads ≤ (ensureSession env w).2.reads := by
  unfold ensureSession
  split
  · exact login_reads env w
  · split
    · exact le_rfl
    · split
      · exact le_rfl
      · dsimp only
        split
        · have h := login_reads env (Date_now env w).2
          simp only [Date_now_reads] at h
          omega
        · simp only [Date_now_reads]
          omega

theorem submissions_cons_login (w w1 : Sys) (h : w1.sent = Request.login :: w.sent) :
    submissions w1 = submissions w := by
  simp [submissions, h]

theorem ensureSession_submissions (w : Sys) :
    submissions (ensureSession env w).2 = submissions w := by
  rcases ensureSession_sent env w with h | h
  · simp [submissions, h]
  · exact submissions_cons_login _ _ h

end Frame

/-! ## The paths of `performCheckin` and `performCheckout` -/

section Checkin
variable (env : Env)

theorem performCheckin_auth_failed (triggeredBy : String) (w : Sys)
    (hs : (ensureSession env w).1 = false) :
    performCheckin env triggeredBy w =
      ({ success := false, reason := some "auth_failed", time := none, data := none },
       log env .error .checkinAborted (ensureSession env w).2) := by
  simp [performCheckin, hs]

theorem performCheckin_skipped (triggeredBy : String) (w : Sys)
    (hs : (ensureSession env w).1 = true)
    (hg : sameDateString env w.state.lastCheckin (env.clock (ensureSession env w).2.reads) = true) :
    performCheckin env triggeredBy w =
      ({ success := false, reason := some "already_checked_in", time := none, data := none },
       log env .warn .checkinSkipped (Date_now env (ensureSession env w).2).2) := by
  simp [performCheckin, hs, hg, ensureSession_lastCheckin]

theorem performCheckin_rejected (triggeredBy : String) (w : Sys) (message : String)
    (hs : (ensureSession env w).1 = true)
    (hg : sameDateString env w.state.lastCheckin (env.clock (ensureSession env w).2.reads) = false)
    (hr : env.postReply (ensureSession env w).2.sent.length = .rejected message) :
    performCheckin env triggeredBy w =
      ({ success := false, reason := some message, time := none, data := none },
       log env .error (.checkinFailed message)
        (postAttendance env { getBaseAttendancePayload with mark_checkin := true }
          (log env .info (.performingCheckin triggeredBy)
            (Date_now env (ensureSession env w).2).2)).2) := by
  simp [performCheckin, hs, hg, ensureSession_lastCheckin, postAttendance, hr]

theorem performCheckin_resolved (triggeredBy : String) (w : Sys) (status : Nat) (data : String)
    (hs : (ensureSession env w).1 = true)
    (hg : sameDateString env w.state.lastCheckin (env.clock (ensureSession env w).2.reads) = false)
    (hr : env.postReply (ensureSession env w).2.sent.length = .resolved status data) :
    (performCheckin env triggeredBy w).1 =
      { success := true, reason := none, time := some (env.clock ((ensureSession env w).2.reads + 2)),
        data := some data } ∧
    (performCheckin env triggeredBy w).2.state.lastCheckin =
      some (env.clock ((ensureSession env w).2.reads + 2)) ∧
    (performCheckin env triggeredBy w).2.reads = (ensureSession env w).2.reads + 4 := by
  simp [performCheckin, hs, hg, ensureSession_lastCheckin, postAttendance, hr]

end Checkin

section Seq
variable (env : Env)

theorem submissions_log (level : Level) (message : LogMessage) (w : Sys) :
    submissions (log env level message w) = submissions w := rfl

theorem submissions_Date_now (w : Sys) : submissions (Date_now env w).2 = submissions w := rfl

theorem submissions_postAttendance (payload : Payload) (w : Sys) :
    submissions (postAttendance env payload w).2 = submissions w + 1 := by
  simp [postAttendance, submissions]

theorem performCheckin_reads (triggeredBy : String) (w : Sys) :
    w.reads ≤ (performCheckin env triggeredBy w).2.reads := by
  have h := ensureSession_reads env w
  unfold performCheckin
  dsimp only
  split
  · simp only [log_reads]; omega
  · split
    · simp only [log_reads, Date_now_reads]; omega
    · split
      · simp only [log_reads, Date_now_reads, postAttendance]; omega
      · simp only [log_reads, Date_now_reads, postAttendance]; omega

/-- Once a check-in of the day is recorded, a call submits nothing. -/
theorem performCheckin_guarded (triggeredBy : String) (w : Sys) (t0 : Int)
    (hlast : w.state.lastCheckin = some t0)
    (hday : toDateString env (env.clock (ensureSession env w).2.reads) = toDateString env t0) :
    (performCheckin env triggeredBy w).1.success = false ∧
    ((performCheckin env triggeredBy w).1.reason = some "already_checked_in" ∨
      (performCheckin env triggeredBy w).1.reason = some "auth_failed") ∧
    submissions (performCheckin env triggeredBy w).2 = submissions w ∧
    (performCheckin env triggeredBy w).2.state.lastCheckin = w.state.lastCheckin := by
  have hg : sameDateString env w.state.lastCheckin (env.clock (ensureSession env w).2.reads)
      = true := by
    simp [sameDateString, hlast, hday]
  cases hs : (ensureSession env w).1
  · rw [performCheckin_auth_failed env triggeredBy w hs]
    simp [submissions_log, ensureSession_submissions, ensureSession_lastCheckin]
  · rw [performCheckin_skipped env triggeredBy w hs hg]
    simp [submissions_log, submissions_Date_now, ensureSession_submissions,
      ensureSession_lastCheckin]

/-- A successful call records a clock reading taken during the call. -/
theorem performCheckin_success (triggeredBy : String) (w : Sys)
    (h : (performCheckin env triggeredBy w).1.success = true) :
    ∃ n, w.reads ≤ n ∧ (performCheckin env triggeredBy w).2.state.lastCheckin = some (env.clock n) := by
  cases hs : (ensureSession env w).1
  · rw [performCheckin_auth_failed env triggeredBy w hs] at h
    simp at h
  · cases hg : sameDateString env w.state.lastCheckin (env.clock (ensureSession env w).2.reads)
    · cases hr : env.postReply (ensureSession env w).2.sent.length with
      | rejected message =>
        rw [performCheckin_rejected env triggeredBy w message hs hg hr] at h
        simp at h
      | resolved status data =>
        have h2 := (performCheckin_resolved env triggeredBy w status data hs hg hr).2.1
        exact ⟨_, le_trans (ensureSession_reads env w) (Nat.le_add_right _ 2), h2⟩
    · rw [performCheckin_skipped env triggeredBy w hs hg] at h
      simp at h

/-- After a recorded check-in of the day, no call of a run submits or succeeds. -/
theorem runCheckins_guarded (d : Int) (triggers : List String) :
    ∀ (w : Sys) (t0 : Int), w.state.lastCheckin = some t0 → toDateString env t0 = d →
      (∀ n, w.reads ≤ n → toDateString env (env.clock n) = d) →
      ∀ r ∈ runCheckins env triggers w,
        r.1.success = false ∧
        (r.1.reason = some "already_checked_in" ∨ r.1.reason = some "auth_failed") ∧
        submissions r.2 = submissions w ∧ r.2.state.lastCheckin = w.state.lastCheckin := by
  induction triggers with
  | nil => intro w t0 _ _ _ r hr; simp [runCheckins] at hr
  | cons triggeredBy rest ih =>
    intro w t0 hlast ht0 hday r hr
    have hg := performCheckin_guarded env triggeredBy w t0 hlast
      ((hday _ (ensureSession_reads env w)).trans ht0.symm)
    simp only [runCheckins, List.mem_cons] at hr
    rcases hr with rfl | hr
    · exact hg
    · have hlast1 : (performCheckin env triggeredBy w).2.state.lastCheckin = some t0 :=
        hg.2.2.2.trans hlast
      have hday1 : ∀ n, (performCheckin env triggeredBy w).2.reads ≤ n →
          toDateString env (env.clock n) = d :=
        fun n hn => hday n (le_trans (performCheckin_reads env triggeredBy w) hn)
      have := ih _ t0 hlast1 ht0 hday1 r hr
      exact ⟨this.1, this.2.1, this.2.2.1.trans hg.2.2.1, this.2.2.2.trans hg.2.2.2⟩

end Seq

section Checkout
variable (env : Env)

theorem performCheckin_sent (triggeredBy : String) (w : Sys)
    (hs : (ensureSession env w).1 = true)
    (hg : sameDateString env w.state.lastCheckin (env.clock (ensureSession env w).2.reads) = false) :
    (performCheckin env triggeredBy w).2.sent =
      Request.attendance { getBaseAttendancePayload with mark_checkin := true }
        (buildAuthHeaders (ensureSession env w).2.state).1
        (buildAuthHeaders (ensureSession env w).2.state).2 :: (ensureSession env w).2.sent := by
  unfold performCheckin
  simp only [hs, Bool.not_true, Bool.false_eq_true, ↓reduceIte, Date_now_state, Date_now_fst,
    ensureSession_lastCheckin, hg]
  split <;> rfl

theorem submissions_cons_attendance (w w1 : Sys) (payload : Payload) (a c : Option String)
    (h : w1.sent = Request.attendance payload a c :: w.sent) :
    submissions w1 = submissions w + 1 := by
  simp [submissions, h]

theorem performCheckin_submits (triggeredBy : String) (w : Sys)
    (hs : (ensureSession env w).1 = true)
    (hg : sameDateString env w.state.lastCheckin (env.clock (ensureSession env w).2.reads) = false) :
    submissions (performCheckin env triggeredBy w).2 = submissions w + 1 := by
  rw [submissions_cons_attendance _ _ _ _ _ (performCheckin_sent env triggeredBy w hs hg),
    ensureSession_submissions]

theorem performCheckout_rejected (triggeredBy : String) (w : Sys) (message : String)
    (hs : (ensureSession env w).1 = true)
    (hg : sameDateString env w.state.lastCheckout (env.clock (ensureSession env w).2.reads) = false)
    (hr : env.postReply (ensureSession env w).2.sent.length = .rejected message) :
    (performCheckout env triggeredBy w).1 =
      { success := false, reason := some message, time := none, data := none } ∧
    (performCheckout env triggeredBy w).2.state.lastCheckin = w.state.lastCheckin ∧
    (performCheckout env triggeredBy w).2.state.lastCheckout = w.state.lastCheckout := by
  unfold performCheckout
  simp only [hs, Bool.not_true, Bool.false_eq_true, ↓reduceIte, Date_now_state, Date_now_fst,
    ensureSession_lastCheckout, hg]
  cases hl : w.state.lastCheckin <;>
    simp [postAttendance, hr, hl, ensureSession_lastCheckin, ensureSession_lastCheckout]

theorem performCheckout_sent (triggeredBy : String) (w : Sys)
    (hs : (ensureSession env w).1 = true)
    (hg : sameDateString env w.state.lastCheckout (env.clock (ensureSession env w).2.reads) = false) :
    (performCheckout env triggeredBy w).2.sent =
      Request.attendance { getBaseAttendancePayload with
          is_checkin_time := true
          checkin_time := checkoutCheckinTime w.state.lastCheckin
            (env.clock ((ensureSession env w).2.reads + 2))
          mark_checkout := some true }
        (buildAuthHeaders (ensureSession env w).2.state).1
        (buildAuthHeaders (ensureSession env w).2.state).2 :: (ensureSession env w).2.sent := by
  unfold performCheckout
  simp only [hs, Bool.not_true, Bool.false_eq_true, ↓reduceIte, Date_now_state, Date_now_fst,
    ensureSession_lastCheckout, hg]
  cases hl : w.state.lastCheckin <;>
    split <;>
      simp [postAttendance, hl, ensureSession_lastCheckin, checkoutCheckinTime, buildAuthHeaders]

theorem performCheckout_submits (triggeredBy : String) (w : Sys)
    (hs : (ensureSession env w).1 = true)
    (hg : sameDateString env w.state.lastCheckout (env.clock (ensureSession env w).2.reads) = false) :
    submissions (performCheckout env triggeredBy w).2 = submissions w + 1 := by
  rw [submissions_cons_attendance _ _ _ _ _ (performCheckout_sent env triggeredBy w hs hg),
    ensureSession_submissions]

theorem sameDateString_congr (last : Option Int) (a b : Int)
    (h : toDateString env a = toDateString env b) :
    sameDateString env last a = sameDateString env last b := by
  cases last <;> simp [sameDateString, h]

end Checkout

/-! ## Helper lemmas for the claims -/

theorem log_head (env : Env) (level : Level) (message : LogMessage) (w : Sys) :
    (log env level message w).state.log.head? =
      some { time := env.clock w.reads, level := level, message := message } := by
  simp only [log, Date_now]
  split
  · rename_i h
    cases hl : w.state.log with
    | nil => simp [hl] at h
    | cons a l => simp [List.dropLast]
  · rfl

/-- Every reading of the ten-minute clock started at 09:00 Karachi time falls on
local day 20761 (2026-11-04). -/
theorem tickingClock_day (env : Env) (n : Nat) (h : env.tzOffsetMs = 18000000) :
    toDateString env (tickingClock nineOClock n) = 20761 := by
  simp only [toDateString, tickingClock, nineOClock, Day, LocalTime, msPerDay, h]
  omega

theorem digit_ne_T (n : Int) : digit n ≠ 'T' := by
  unfold digit
  split <;> decide

/-- The first 19 characters of an ISO timestamp with a four-digit year, after
'T' is replaced by a space. -/
theorem checkoutCheckinTime_format (t : Int)
    (hyear : 0 ≤ (civilFromDays (Day t)).1 ∧ (civilFromDays (Day t)).1 ≤ 9999) :
    substring (replace 'T' ' ' (toISOString t)) 0 19 = isoDate t ++ ' ' :: isoTime t ∧
    (isoDate t ++ ' ' :: isoTime t).length = 19 := by
  simp [substring, toISOString, isoDate, isoTime, isoMillis, isoYear, hyear, pad4, pad2, pad3,
    replace, digit_ne_T]

/-- The rendering of `toISOString` on sample instants, among them a leap day and
the first instant past the year 9999. -/
theorem toISOString_samples :
    toISOString 1793764800123 = "2026-11-04T04:00:00.123Z".toList ∧
    toISOString 951782400000 = "2000-02-29T00:00:00.000Z".toList ∧
    toISOString (-1) = "1969-12-31T23:59:59.999Z".toList ∧
    toISOString 253402300800000 = "+010000-01-01T00:00:00.000Z".toList := by
  decide

/-- A ping at the office during the window checks in; the same ping a little
later the same day is answered with 'already_checked_in'. -/
theorem location_ping_samples :
    (handleLocationTriggeredCheckin (karachi (tickingClock nineOClock) loginDown postUp) 0 0
      (loggedIn (nineOClock + 518400000))).1 =
      { triggered := true, action := some "checkin", distance := some 0, reason := none,
        success := some true, time := some (nineOClock + 6000), data := some "ok" } ∧
    (handleLocationTriggeredCheckin (karachi (tickingClock nineOClock) loginDown postUp) 0 0
      (handleLocationTriggeredCheckin (karachi (tickingClock nineOClock) loginDown postUp) 0 0
        (loggedIn (nineOClock + 518400000))).2).1 =
      { triggered := true, action := some "checkin", distance := some 0,
        reason := some (LocationReason.ofCheckin "already_checked_in"),
        success := some false, time := none, data := none } := by
  decide!

theorem approxMath_specialValues : SpecialValues approxMath where
  sin_zero := by simp [approxMath]
  sqrt_zero := by decide!
  sqrt_one := by decide!
  atan2_zero := by
    intro x hx
    simp [approxMath, approxAtan, hx]

theorem haversineDistance_self (m : JSMath) (hm : SpecialValues m) (lat lng : ℚ) :
    haversineDistance m lat lng lat lng = 0 := by
  simp [haversineDistance, hm.sin_zero, hm.sqrt_zero, hm.sqrt_one, hm.atan2_zero 1 one_pos]

/-! ## The claims -/

/-- Claim C1. Once a check-in is recorded (`lastCheckin` holds the instant `t0`),
a `performCheckin` call whose clock readings fall on the local calendar day of
`t0` and whose session check succeeds returns
`{success: false, reason: 'already_checked_in'}`, sends no attendance submission
and leaves `lastCheckin` as it was. -/
theorem performCheckin_already_checked_in (env : Env) (triggeredBy : String) (w : Sys) (t0 : Int)
    (hlast : w.state.lastCheckin = some t0)
    (hday : ∀ n, w.reads ≤ n → toDateString env (env.clock n) = toDateString env t0)
    (hsession : (ensureSession env w).1 = true) :
    (performCheckin env triggeredBy w).1 =
      { success := false, reason := some "already_checked_in", time := none, data := none } ∧
    submissions (performCheckin env triggeredBy w).2 = submissions w ∧
    (performCheckin env triggeredBy w).2.state.lastCheckin = w.state.lastCheckin := by
  have hg : sameDateString env w.state.lastCheckin (env.clock (ensureSession env w).2.reads)
      = true := by
    simp [sameDateString, hlast, hday _ (ensureSession_reads env w)]
  rw [performCheckin_skipped env triggeredBy w hsession hg]
  simp [submissions_log, submissions_Date_now, ensureSession_submissions,
    ensureSession_lastCheckin]

/-- Claim C1 at a concrete input: a check-in recorded at 09:00, a manual call
within the next ten minutes. -/
theorem performCheckin_already_checked_in_witness :
    (performCheckin (karachi (tickingClock nineOClock) loginDown postUp) "manual"
        (checkedIn nineOClock (nineOClock + 518400000))).1 =
      { success := false, reason := some "already_checked_in", time := none, data := none } ∧
    submissions (performCheckin (karachi (tickingClock nineOClock) loginDown postUp) "manual"
        (checkedIn nineOClock (nineOClock + 518400000))).2 =
      submissions (checkedIn nineOClock (nineOClock + 518400000)) ∧
    (performCheckin (karachi (tickingClock nineOClock) loginDown postUp) "manual"
        (checkedIn nineOClock (nineOClock + 518400000))).2.state.lastCheckin =
      (checkedIn nineOClock (nineOClock + 518400000)).state.lastCheckin :=
  performCheckin_already_checked_in (karachi (tickingClock nineOClock) loginDown postUp) "manual"
    (checkedIn nineOClock (nineOClock + 518400000)) nineOClock rfl
    (fun n _ => (tickingClock_day _ n rfl).trans (by decide)) (by decide)

/-- Claim C2, as the code has it. In a run of `performCheckin` calls whose clock
readings all fall on one local calendar day `d`, at most one call returns
success; every call after a successful one returns `success: false` with reason
'already_checked_in' (or 'auth_failed', when its session check fails), adds no
attendance submission and leaves `lastCheckin` as the successful call set it. -/
theorem runCheckins_at_most_one_success (env : Env) (d : Int) (triggers : List String) (w : Sys)
    (hday : ∀ n, w.reads ≤ n → toDateString env (env.clock n) = d) :
    ((runCheckins env triggers w).filter fun r => r.1.success).length ≤ 1 ∧
    ∀ (i j : Nat) (ri rj : CheckResult × Sys), i < j →
      (runCheckins env triggers w)[i]? = some ri → (runCheckins env triggers w)[j]? = some rj →
      ri.1.success = true →
      rj.1.success = false ∧
      (rj.1.reason = some "already_checked_in" ∨ rj.1.reason = some "auth_failed") ∧
      submissions rj.2 = submissions ri.2 ∧ rj.2.state.lastCheckin = ri.2.state.lastCheckin := by
  induction triggers generalizing w with
  | nil => simp [runCheckins]
  | cons triggeredBy rest ih =>
    have hday1 : ∀ n, (performCheckin env triggeredBy w).2.reads ≤ n →
        toDateString env (env.clock n) = d :=
      fun n hn => hday n (le_trans (performCheckin_reads env triggeredBy w) hn)
    have hafter : (performCheckin env triggeredBy w).1.success = true →
        ∀ r ∈ runCheckins env rest (performCheckin env triggeredBy w).2,
          r.1.success = false ∧
          (r.1.reason = some "already_checked_in" ∨ r.1.reason = some "auth_failed") ∧
          submissions r.2 = submissions (performCheckin env triggeredBy w).2 ∧
          r.2.state.lastCheckin = (performCheckin env triggeredBy w).2.state.lastCheckin := by
      intro hsucc
      obtain ⟨n, hn, hlast⟩ := performCheckin_success env triggeredBy w hsucc
      exact runCheckins_guarded env d rest _ _ hlast (hday n hn) hday1
    obtain ⟨ih1, ih2⟩ := ih _ hday1
    constructor
    · simp only [runCheckins]
      cases hsucc : (performCheckin env triggeredBy w).1.success
      · simpa [List.filter_cons, hsucc] using ih1
      · have hnone : (runCheckins env rest (performCheckin env triggeredBy w).2).filter
            (fun r => r.1.success) = [] := by
          rw [List.filter_eq_nil_iff]
          intro r hr
          simp [(hafter hsucc r hr).1]
        simp [List.filter_cons, hsucc, hnone]
    · intro i j ri rj hij hi hj hsucc
      simp only [runCheckins] at hi hj
      cases j with
      | zero => omega
      | succ j =>
        rw [List.getElem?_cons_succ] at hj
        cases i with
        | zero =>
          rw [List.getElem?_cons_zero] at hi
          cases hi
          exact hafter hsucc rj (List.getElem?_mem hj)
        | succ i =>
          rw [List.getElem?_cons_succ] at hi
          exact ih2 i j ri rj (by omega) hi hj hsucc

/-- Claim C2 at a concrete input: three calls within ten minutes, the attendance
endpoint accepting every submission. -/
theorem runCheckins_at_most_one_success_witness :
    ((runCheckins (karachi (tickingClock nineOClock) loginDown postUp)
        ["cron", "manual", "location_ping"] (loggedIn (nineOClock + 518400000))).filter
      fun r => r.1.success).length ≤ 1 :=
  (runCheckins_at_most_one_success (karachi (tickingClock nineOClock) loginDown postUp) 20761
    ["cron", "manual", "location_ping"] (loggedIn (nineOClock + 518400000))
    (fun n _ => tickingClock_day _ n rfl)).1

/-- Claim C2 as stated fails: two calls within the same ten minutes, the first
submission rejected by the endpoint, the second accepted. Both calls submit, and
the call that follows the first submission succeeds instead of returning
'already_checked_in'. -/
theorem runCheckins_two_submissions :
    (∀ n, toDateString (karachi (tickingClock nineOClock) loginDown postDownOnce)
        (tickingClock nineOClock n) = 20761) ∧
    (runCheckins (karachi (tickingClock nineOClock) loginDown postDownOnce)
        ["cron", "manual"] (loggedIn (nineOClock + 518400000))).map
      (fun r => (r.1, submissions r.2)) =
    [({ success := false, reason := some "Network Error", time := none, data := none }, 1),
     ({ success := true, reason := none, time := some (nineOClock + 7000), data := some "ok" },
      2)] :=
  ⟨fun n => tickingClock_day _ n rfl, by decide⟩

/-- Claim C3. When the session check succeeds and the attendance endpoint rejects
the submission with an error carrying `message`, `performCheckin` (when the daily
guard lets it submit) returns `{success: false, reason: message}` and leaves
`lastCheckin` and `lastCheckout` as they were, and a later `performCheckin` whose
session check succeeds and whose `todayStr` reading falls on the same local day
submits again; `performCheckout` does the same with respect to `lastCheckout`. -/
theorem failed_submission_leaves_state (env : Env) (triggeredBy : String) (w : Sys)
    (message : String)
    (hsession : (ensureSession env w).1 = true)
    (hfail : env.postReply (ensureSession env w).2.sent.length = PostReply.rejected message) :
    (sameDateString env w.state.lastCheckin (env.clock (ensureSession env w).2.reads) = false →
      (performCheckin env triggeredBy w).1 =
        { success := false, reason := some message, time := none, data := none } ∧
      (performCheckin env triggeredBy w).2.state.lastCheckin = w.state.lastCheckin ∧
      (performCheckin env triggeredBy w).2.state.lastCheckout = w.state.lastCheckout ∧
      ∀ later : String, (ensureSession env (performCheckin env triggeredBy w).2).1 = true →
        toDateString env (env.clock (ensureSession env (performCheckin env triggeredBy w).2).2.reads)
          = toDateString env (env.clock (ensureSession env w).2.reads) →
        submissions (performCheckin env later (performCheckin env triggeredBy w).2).2 =
          submissions (performCheckin env triggeredBy w).2 + 1) ∧
    (sameDateString env w.state.lastCheckout (env.clock (ensureSession env w).2.reads) = false →
      (performCheckout env triggeredBy w).1 =
        { success := false, reason := some message, time := none, data := none } ∧
      (performCheckout env triggeredBy w).2.state.lastCheckin = w.state.lastCheckin ∧
      (performCheckout env triggeredBy w).2.state.lastCheckout = w.state.lastCheckout ∧
      ∀ later : String, (ensureSession env (performCheckout env triggeredBy w).2).1 = true →
        toDateString env (env.clock (ensureSession env (performCheckout env triggeredBy w).2).2.reads)
          = toDateString env (env.clock (ensureSession env w).2.reads) →
        submissions (performCheckout env later (performCheckout env triggeredBy w).2).2 =
          submissions (performCheckout env triggeredBy w).2 + 1) := by
  constructor
  · intro hg
    have heq := performCheckin_rejected env triggeredBy w message hsession hg hfail
    have h1 : (performCheckin env triggeredBy w).2.state.lastCheckin = w.state.lastCheckin := by
      rw [heq]; simp [postAttendance, ensureSession_lastCheckin]
    have h2 : (performCheckin env triggeredBy w).2.state.lastCheckout = w.state.lastCheckout := by
      rw [heq]; simp [postAttendance, ensureSession_lastCheckout]
    refine ⟨by rw [heq], h1, h2, ?_⟩
    intro later hs2 hday
    apply performCheckin_submits env later _ hs2
    rw [h1, sameDateString_congr env _ _ _ hday]
    exact hg
  · intro hg
    obtain ⟨h0, h1, h2⟩ := performCheckout_rejected env triggeredBy w message hsession hg hfail
    refine ⟨h0, h1, h2, ?_⟩
    intro later hs2 hday
    apply performCheckout_submits env later _ hs2
    rw [h2, sameDateString_congr env _ _ _ hday]
    exact hg

/-- Claim C3 at a concrete input: the endpoint rejects every submission with
'Network Error'; the cron call fails and a manual call after it submits again. -/
theorem failed_submission_leaves_state_witness :
    ((performCheckin (karachi (tickingClock nineOClock) loginDown postDown) "cron"
        (loggedIn (nineOClock + 518400000))).1 =
      { success := false, reason := some "Network Error", time := none, data := none } ∧
     submissions (performCheckin (karachi (tickingClock nineOClock) loginDown postDown) "manual"
        (performCheckin (karachi (tickingClock nineOClock) loginDown postDown) "cron"
          (loggedIn (nineOClock + 518400000))).2).2 =
      submissions (performCheckin (karachi (tickingClock nineOClock) loginDown postDown) "cron"
          (loggedIn (nineOClock + 518400000))).2 + 1) ∧
    ((performCheckout (karachi (tickingClock nineOClock) loginDown postDown) "cron"
        (loggedIn (nineOClock + 518400000))).1 =
      { success := false, reason := some "Network Error", time := none, data := none } ∧
     submissions (performCheckout (karachi (tickingClock nineOClock) loginDown postDown) "manual"
        (performCheckout (karachi (tickingClock nineOClock) loginDown postDown) "cron"
          (loggedIn (nineOClock + 518400000))).2).2 =
      submissions (performCheckout (karachi (tickingClock nineOClock) loginDown postDown) "cron"
          (loggedIn (nineOClock + 518400000))).2 + 1) :=
  have h := failed_submission_leaves_state (karachi (tickingClock nineOClock) loginDown postDown)
    "cron" (loggedIn (nineOClock + 518400000)) "Network Error" (by decide) rfl
  ⟨⟨(h.1 (by decide)).1, (h.1 (by decide)).2.2.2 "manual" (by decide) (by decide)⟩,
   ⟨(h.2 (by decide)).1, (h.2 (by decide)).2.2.2 "manual" (by decide) (by decide)⟩⟩

/-- Claim C4, as the code has it. `ensureSession` sends a login request exactly
when neither a token nor cookies are held, or `sessionExpiry` is set (not 0) and
the clock reading is strictly later than `sessionExpiry - 300000`; in every other
case it returns `true`, sends nothing and leaves `state` as it was. -/
theorem ensureSession_login_iff (env : Env) (w : Sys) :
    ((ensureSession env w).2.sent = Request.login :: w.sent ↔
      ((truthyStr w.state.sessionToken = false ∧ truthyStr w.state.sessionCookies = false) ∨
        ∃ e, w.state.sessionExpiry = some e ∧ e ≠ 0 ∧ env.clock w.reads > e - 300000)) ∧
    (¬ ((truthyStr w.state.sessionToken = false ∧ truthyStr w.state.sessionCookies = false) ∨
        ∃ e, w.state.sessionExpiry = some e ∧ e ≠ 0 ∧ env.clock w.reads > e - 300000) →
      (ensureSession env w).1 = true ∧ (ensureSession env w).2.sent = w.sent ∧
        (ensureSession env w).2.state = w.state) := by
  have hne : ∀ (l : List Request), l ≠ Request.login :: l := fun l h => by
    have := congrArg List.length h
    simp at this
  unfold ensureSession
  split
  · rename_i h
    simp only [Bool.and_eq_true, Bool.not_eq_true', Bool.not_eq_eq_eq_not, Bool.not_true] at h
    simp [login_sent, h]
  · rename_i h
    have h' : ¬ (truthyStr w.state.sessionToken = false ∧
        truthyStr w.state.sessionCookies = false) := by
      simpa using h
    split
    · rename_i he
      simp [he, h', hne]
    · rename_i e he
      split
      · rename_i h0
        simp [he, h0, h', hne]
      · rename_i h0
        dsimp only
        split
        · rename_i hlt
          simp [he, h0, h', login_sent]
          simpa using hlt
        · rename_i hlt
          simp at hlt
          simp [he, h0, h']
          exact hlt

/-- Claim C4 at a concrete input: a session expiring in six days needs no login. -/
theorem ensureSession_login_iff_witness :
    (ensureSession (karachi (tickingClock nineOClock) loginDown postUp)
        (loggedIn (nineOClock + 518400000))).1 = true ∧
    (ensureSession (karachi (tickingClock nineOClock) loginDown postUp)
        (loggedIn (nineOClock + 518400000))).2.sent = [] :=
  have h := (ensureSession_login_iff (karachi (tickingClock nineOClock) loginDown postUp)
    (loggedIn (nineOClock + 518400000))).2
    (by simp [loggedIn, initialState, truthyStr, karachi, tickingClock, nineOClock])
  ⟨h.1, h.2.1⟩

/-- Claim C4 as stated fails at the boundary: with a session expiring at
1000000 and the clock at 700000 = 1000000 - 300000, so that
`now >= sessionExpiry - 300000` holds, `ensureSession` returns `true` without a
login request. -/
theorem ensureSession_boundary_no_login :
    (loggedIn 1000000).state.sessionExpiry = some 1000000 ∧
    (karachi (fun _ => 700000) loginDown postUp).clock (loggedIn 1000000).reads ≥
      1000000 - 300000 ∧
    (ensureSession (karachi (fun _ => 700000) loginDown postUp) (loggedIn 1000000)).1 = true ∧
    (ensureSession (karachi (fun _ => 700000) loginDown postUp) (loggedIn 1000000)).2.sent
      = [] := by
  decide

/-- Claim C5. With local time at a fixed offset from UTC, the window test of a
location-triggered check-in is true exactly when the local time of day of `now`
lies between nominal - 30 min and nominal + 60 min, counted in milliseconds from
the local midnight of the day of `now`, both bounds included: true at exactly
nominal - 30 min and nominal + 60 min, false one second before the first and one
second after the second. -/
theorem checkin_window_inclusive (env : Env) (now : Int) :
    (isWithinCheckinWindow env now = true ↔
      (env.CONFIG.schedule.ciH * 60 + env.CONFIG.schedule.ciM - 30) * 60000
          ≤ TimeWithinDay (LocalTime env now) ∧
        TimeWithinDay (LocalTime env now)
          ≤ (env.CONFIG.schedule.ciH * 60 + env.CONFIG.schedule.ciM + 60) * 60000) ∧
    (TimeWithinDay (LocalTime env now) =
        (env.CONFIG.schedule.ciH * 60 + env.CONFIG.schedule.ciM - 30) * 60000 →
      isWithinCheckinWindow env now = true) ∧
    (TimeWithinDay (LocalTime env now) =
        (env.CONFIG.schedule.ciH * 60 + env.CONFIG.schedule.ciM + 60) * 60000 →
      isWithinCheckinWindow env now = true) ∧
    (TimeWithinDay (LocalTime env now) =
        (env.CONFIG.schedule.ciH * 60 + env.CONFIG.schedule.ciM - 30) * 60000 - 1000 →
      isWithinCheckinWindow env now = false) ∧
    (TimeWithinDay (LocalTime env now) =
        (env.CONFIG.schedule.ciH * 60 + env.CONFIG.schedule.ciM + 60) * 60000 + 1000 →
      isWithinCheckinWindow env now = false) := by
  have key : isWithinCheckinWindow env now = true ↔
      (env.CONFIG.schedule.ciH * 60 + env.CONFIG.schedule.ciM - 30) * 60000
          ≤ TimeWithinDay (LocalTime env now) ∧
        TimeWithinDay (LocalTime env now)
          ≤ (env.CONFIG.schedule.ciH * 60 + env.CONFIG.schedule.ciM + 60) * 60000 := by
    simp only [isWithinCheckinWindow, setHours, Day, TimeWithinDay, LocalTime, msPerDay,
      Bool.and_eq_true, decide_eq_true_eq, ge_iff_le]
    constructor <;> intro h <;> constructor <;> omega
  refine ⟨key, fun h => key.2 (by omega), fun h => key.2 (by omega), fun h => ?_, fun h => ?_⟩
  · cases hw : isWithinCheckinWindow env now
    · rfl
    · have := key.1 hw; omega
  · cases hw : isWithinCheckinWindow env now
    · rfl
    · have := key.1 hw; omega

/-- Claim C5 at concrete instants, for check-in at 09:00 Karachi time: 08:30:00
and 10:00:00 are inside the window, 08:29:59 and 10:00:01 are outside. -/
theorem checkin_window_inclusive_witness :
    isWithinCheckinWindow (karachi (tickingClock nineOClock) loginDown postUp)
      (nineOClock - 1800000) = true ∧
    isWithinCheckinWindow (karachi (tickingClock nineOClock) loginDown postUp)
      (nineOClock + 3600000) = true ∧
    isWithinCheckinWindow (karachi (tickingClock nineOClock) loginDown postUp)
      (nineOClock - 1800000 - 1000) = false ∧
    isWithinCheckinWindow (karachi (tickingClock nineOClock) loginDown postUp)
      (nineOClock + 3600000 + 1000) = false :=
  ⟨(checkin_window_inclusive (karachi (tickingClock nineOClock) loginDown postUp)
      (nineOClock - 1800000)).2.1 (by decide),
   (checkin_window_inclusive (karachi (tickingClock nineOClock) loginDown postUp)
      (nineOClock + 3600000)).2.2.1 (by decide),
   (checkin_window_inclusive (karachi (tickingClock nineOClock) loginDown postUp)
      (nineOClock - 1800000 - 1000)).2.2.2.1 (by decide),
   (checkin_window_inclusive (karachi (tickingClock nineOClock) loginDown postUp)
      (nineOClock + 3600000 + 1000)).2.2.2.2 (by decide)⟩

/-- Claim C6, as the code has it. `inPerimeter` is true exactly when the distance
that `haversineDistance` computed is at most the office radius: false when that
distance is greater, true when it equals the radius. The `distance` of the result
is that distance rounded to the nearest integer, so it lies within half a metre
of the distance compared. -/
theorem isInOfficePerimeter_unrounded (env : Env) (lat lng : ℚ) :
    ((isInOfficePerimeter env lat lng).inPerimeter = true ↔
      haversineDistance env.math lat lng env.CONFIG.office.lat env.CONFIG.office.lng
        ≤ env.CONFIG.office.radius) ∧
    (isInOfficePerimeter env lat lng).distance =
      Math_round (haversineDistance env.math lat lng env.CONFIG.office.lat env.CONFIG.office.lng) ∧
    ((isInOfficePerimeter env lat lng).distance : ℚ) - 1 / 2 ≤
      haversineDistance env.math lat lng env.CONFIG.office.lat env.CONFIG.office.lng ∧
    haversineDistance env.math lat lng env.CONFIG.office.lat env.CONFIG.office.lng <
      ((isInOfficePerimeter env lat lng).distance : ℚ) + 1 / 2 ∧
    (env.CONFIG.office.radius <
        haversineDistance env.math lat lng env.CONFIG.office.lat env.CONFIG.office.lng →
      (isInOfficePerimeter env lat lng).inPerimeter = false) ∧
    (haversineDistance env.math lat lng env.CONFIG.office.lat env.CONFIG.office.lng =
        env.CONFIG.office.radius →
      (isInOfficePerimeter env lat lng).inPerimeter = true) := by
  simp only [isInOfficePerimeter, decide_eq_true_eq, decide_eq_false_iff_not, not_le, Math_round]
  refine ⟨trivial, trivial, ?_, ?_, fun h => h, fun h => le_of_eq h⟩
  · have := Int.floor_le
      (haversineDistance env.math lat lng env.CONFIG.office.lat env.CONFIG.office.lng + 1 / 2)
    linarith
  · have := Int.lt_floor_add_one
      (haversineDistance env.math lat lng env.CONFIG.office.lat env.CONFIG.office.lng + 1 / 2)
    linarith

/-- Claim C6 at a concrete input: a ping at (0, 0.0045), about 500 m east of
the office at (0, 0), is farther than the radius of 200 and not in the
perimeter. -/
theorem isInOfficePerimeter_unrounded_witness :
    (isInOfficePerimeter (karachi (tickingClock nineOClock) loginDown postUp)
      0 (45 / 10000)).inPerimeter = false :=
  (isInOfficePerimeter_unrounded (karachi (tickingClock nineOClock) loginDown postUp)
    0 (45 / 10000)).2.2.2.2.1 (by decide!)

/-- Claim C6 as stated fails: a ping at (0, 0.0018) is about 200.15 m from the
office at (0, 0); the distance reported is 200, equal to the radius of 200, and
`inPerimeter` is false. -/
theorem isInOfficePerimeter_reported_equals_radius :
    (karachi (tickingClock nineOClock) loginDown postUp).CONFIG.office.radius = 200 ∧
    isInOfficePerimeter (karachi (tickingClock nineOClock) loginDown postUp) 0 (18 / 10000) =
      { inPerimeter := false, distance := 200 } := by
  decide!

/-- Claim C7. For an office geofence with a non-negative radius, and `Math`
functions that take their exact values at 0 and 1, a sample at the office point
gives `haversineDistance` 0, and `isInOfficePerimeter` returns distance 0 and
`inPerimeter` true. -/
theorem office_point_distance_zero (env : Env) (hm : SpecialValues env.math)
    (hradius : 0 ≤ env.CONFIG.office.radius) :
    haversineDistance env.math env.CONFIG.office.lat env.CONFIG.office.lng
      env.CONFIG.office.lat env.CONFIG.office.lng = 0 ∧
    isInOfficePerimeter env env.CONFIG.office.lat env.CONFIG.office.lng =
      { inPerimeter := true, distance := 0 } := by
  have h := haversineDistance_self env.math hm env.CONFIG.office.lat env.CONFIG.office.lng
  refine ⟨h, ?_⟩
  simp only [isInOfficePerimeter, h, hradius, Math_round, decide_True, zero_add]
  congr 1
  rw [Int.floor_eq_iff]
  norm_num

/-- Claim C7 at a concrete input: the default office at (0, 0) with radius 200. -/
theorem office_point_distance_zero_witness :
    haversineDistance approxMath 0 0 0 0 = 0 ∧
    isInOfficePerimeter (karachi (tickingClock nineOClock) loginDown postUp) 0 0 =
      { inPerimeter := true, distance := 0 } :=
  office_point_distance_zero (karachi (tickingClock nineOClock) loginDown postUp)
    approxMath_specialValues (by decide!)

/-- Claim C8, as the code has it. With `requireLocation` set, the cron check-in
tick calls `performCheckin` exactly when `locationConfirmed` is true and a
location sample exists whose age (the clock reading minus the sample timestamp)
is strictly less than `locationTimeoutMs`; otherwise the tick writes a warning to
the log and sends nothing, and `lastCheckin` and the session stay as they were. -/
theorem cronCheckinTick_location_gate (env : Env) (w : Sys)
    (hrequire : env.CONFIG.features.requireLocation = true) :
    ((cronCheckinTick env w).1.isSome = true ↔
      (w.state.locationConfirmed = true ∧ ∃ sample, w.state.lastLocation = some sample ∧
        env.clock (w.reads + 1) - sample.timestamp < env.CONFIG.features.locationTimeoutMs)) ∧
    ((cronCheckinTick env w).1.isSome = true →
      cronCheckinTick env w =
        (some (performCheckin env "cron+location"
            (Date_now env (log env .info .cronCheckinTriggered w)).2).1,
          (performCheckin env "cron+location"
            (Date_now env (log env .info .cronCheckinTriggered w)).2).2)) ∧
    ((cronCheckinTick env w).1 = none →
      (cronCheckinTick env w).2.sent = w.sent ∧
      (cronCheckinTick env w).2.state.lastCheckin = w.state.lastCheckin ∧
      (cronCheckinTick env w).2.state.sessionToken = w.state.sessionToken ∧
      (cronCheckinTick env w).2.state.sessionExpiry = w.state.sessionExpiry ∧
      ∃ age, (cronCheckinTick env w).2.state.log.head? =
        some { time := env.clock ((cronCheckinTick env w).2.reads - 1), level := Level.warn,
               message := LogMessage.cronCheckinSkipped age w.state.locationConfirmed }) := by
  unfold cronCheckinTick
  simp only [hrequire, ↓reduceIte, log_lastLocation, log_locationConfirmed, Date_now_state,
    Date_now_fst, log_reads]
  cases hl : w.state.lastLocation with
  | none => simp [log_head]
  | some sample =>
    simp only [Bool.and_eq_true, decide_eq_true_eq]
    split
    · rename_i h
      simp [h]
    · rename_i h
      simp only [Option.isSome_none, Bool.false_eq_true, false_iff, IsEmpty.forall_iff, log_sent,
        Date_now_sent, log_lastCheckin, Date_now_state, log_sessionToken, log_sessionExpiry,
        log_head, log_reads, Date_now_reads, true_and, forall_const]
      refine ⟨?_, ⟨some (Math_round
        ((env.clock (w.reads + 1) - sample.timestamp : Int) / 1000)), ?_⟩⟩
      · rintro ⟨hc, s, hs, hlt⟩
        cases hs
        exact h ⟨hc, hlt⟩
      · simp

/-- Claim C8 at a concrete input: an in-perimeter sample one minute old lets the
tick call `performCheckin`, which submits. -/
theorem cronCheckinTick_location_gate_witness :
    (cronCheckinTick (karachi (tickingClock nineOClock) loginDown postUp)
      (located (nineOClock - 60000))).1.isSome = true :=
  ((cronCheckinTick_location_gate (karachi (tickingClock nineOClock) loginDown postUp)
    (located (nineOClock - 60000)) rfl).1).2
    ⟨rfl, ⟨{ lat := 0, lng := 0, timestamp := nineOClock - 60000, distance := 0 }, rfl,
      by decide⟩⟩

/-- Claim C8 as stated fails at the boundary: with `locationConfirmed` true and a
sample whose age equals `locationTimeoutMs` (300000), so that
`now - timestamp <= locationTimeoutMs` holds, the tick makes no `performCheckin`
call and sends nothing. -/
theorem cronCheckinTick_age_equal_timeout :
    (located (nineOClock - 300000)).state.locationConfirmed = true ∧
    (karachi (fun _ => nineOClock) loginDown postUp).clock 1 - (nineOClock - 300000) ≤
      (karachi (fun _ => nineOClock) loginDown postUp).CONFIG.features.locationTimeoutMs ∧
    (cronCheckinTick (karachi (fun _ => nineOClock) loginDown postUp)
      (located (nineOClock - 300000))).1 = none ∧
    (cronCheckinTick (karachi (fun _ => nineOClock) loginDown postUp)
      (located (nineOClock - 300000))).2.sent = [] := by
  decide

/-- Claim C9. When `performCheckout` submits (the session check succeeds and no
check-out of the day is recorded), the payload has `is_checkin_time` true and
`mark_checkout` true, and its `checkin_time` is: for a recorded check-in at an
instant `t` of the years 0..9999, whose timestamp is
'YYYY-MM-DDTHH:MM:SS.sssZ', the 19 characters 'YYYY-MM-DD HH:MM:SS' with the
same date and time digits; with no check-in recorded, the same rendering of the
clock reading taken at that point. -/
theorem performCheckout_checkin_time (env : Env) (triggeredBy : String) (w : Sys)
    (hsession : (ensureSession env w).1 = true)
    (hguard : sameDateString env w.state.lastCheckout
      (env.clock (ensureSession env w).2.reads) = false) :
    ∃ payload authorization cookie,
      (performCheckout env triggeredBy w).2.sent =
        Request.attendance payload authorization cookie :: (ensureSession env w).2.sent ∧
      payload.is_checkin_time = true ∧ payload.mark_checkout = some true ∧
      (∀ t, w.state.lastCheckin = some t →
        0 ≤ (civilFromDays (Day t)).1 ∧ (civilFromDays (Day t)).1 ≤ 9999 →
        toISOString t = isoDate t ++ 'T' :: isoTime t ++ '.' :: isoMillis t ++ ['Z'] ∧
        payload.checkin_time = isoDate t ++ ' ' :: isoTime t ∧
        payload.checkin_time.length = 19) ∧
      (w.state.lastCheckin = none →
        0 ≤ (civilFromDays (Day (env.clock ((ensureSession env w).2.reads + 2)))).1 ∧
          (civilFromDays (Day (env.clock ((ensureSession env w).2.reads + 2)))).1 ≤ 9999 →
        payload.checkin_time =
          isoDate (env.clock ((ensureSession env w).2.reads + 2)) ++
            ' ' :: isoTime (env.clock ((ensureSession env w).2.reads + 2)) ∧
        payload.checkin_time.length = 19) := by
  refine ⟨_, _, _, performCheckout_sent env triggeredBy w hsession hguard, rfl, rfl, ?_, ?_⟩
  · intro t ht hyear
    have h := checkoutCheckinTime_format t hyear
    simp only [ht, checkoutCheckinTime]
    exact ⟨rfl, h.1, h.1 ▸ h.2⟩
  · intro hnone hyear
    have h := checkoutCheckinTime_format _ hyear
    simp only [hnone, checkoutCheckinTime]
    exact ⟨h.1, h.1 ▸ h.2⟩

/-- Claim C9 at a concrete input: a check-in recorded at 2026-11-04T04:00:00.000Z
is restated as '2026-11-04 04:00:00'. -/
theorem performCheckout_checkin_time_witness :
    ∃ payload authorization cookie,
      (performCheckout (karachi (tickingClock nineOClock) loginDown postUp) "cron"
        (checkedIn nineOClock (nineOClock + 518400000))).2.sent =
        [Request.attendance payload authorization cookie] ∧
      toISOString nineOClock = "2026-11-04T04:00:00.000Z".toList ∧
      payload.checkin_time = "2026-11-04 04:00:00".toList := by
  obtain ⟨payload, authorization, cookie, hsent, _, _, hsome, _⟩ :=
    performCheckout_checkin_time (karachi (tickingClock nineOClock) loginDown postUp) "cron"
      (checkedIn nineOClock (nineOClock + 518400000)) (by decide) (by decide)
  exact ⟨payload, authorization, cookie, hsent, by decide,
    (hsome nineOClock rfl (by decide)).2.1.trans (by decide)⟩

/-- The effects of a ping outside the office perimeter: the result has
`triggered: false` and the 'Outside perimeter' reason; nothing is sent; the
session, `lastCheckin` and `lastCheckout` stay as they were; the location sample
is replaced by the ping, `locationConfirmed` becomes false and `log` adds one
entry. -/
theorem handleLocationTriggeredCheckin_outside (env : Env) (lat lng : ℚ) (w : Sys)
    (hout : (isInOfficePerimeter env lat lng).inPerimeter = false) :
    (handleLocationTriggeredCheckin env lat lng w).1.triggered = false ∧
    (handleLocationTriggeredCheckin env lat lng w).1.reason =
      some (LocationReason.outsidePerimeter (isInOfficePerimeter env lat lng).distance
        env.CONFIG.office.radius) ∧
    (handleLocationTriggeredCheckin env lat lng w).2.sent = w.sent ∧
    (handleLocationTriggeredCheckin env lat lng w).2.state.sessionToken = w.state.sessionToken ∧
    (handleLocationTriggeredCheckin env lat lng w).2.state.sessionCookies = w.state.sessionCookies ∧
    (handleLocationTriggeredCheckin env lat lng w).2.state.sessionExpiry = w.state.sessionExpiry ∧
    (handleLocationTriggeredCheckin env lat lng w).2.state.lastCheckin = w.state.lastCheckin ∧
    (handleLocationTriggeredCheckin env lat lng w).2.state.lastCheckout = w.state.lastCheckout ∧
    (handleLocationTriggeredCheckin env lat lng w).2.state.lastLocation =
      some { lat := lat, lng := lng, timestamp := env.clock (w.reads + 1),
             distance := (isInOfficePerimeter env lat lng).distance } ∧
    (handleLocationTriggeredCheckin env lat lng w).2.state.locationConfirmed = false ∧
    (handleLocationTriggeredCheckin env lat lng w).2.state.log =
      (log env .info (.locationReceived (isInOfficePerimeter env lat lng).distance false lat lng)
        w).state.log := by
  unfold handleLocationTriggeredCheckin
  simp [hout]

/-- Claim C10, the code at the failing input. The office is at (0, 0) with
radius 200. A ping at (0, 0.0045) is 500 m away, outside the perimeter: the
result is `triggered: false` with the 'Outside perimeter' reason and has no
`distance` field, where the claim has the distance as a field of the result.
Nothing is sent and `locationConfirmed` becomes false. The other return of the
function with `triggered: false`, reached by a ping at (0, 0.0009) at 11:00,
outside the check-in window, does carry the field: `distance: 100`. -/
theorem outside_perimeter_ping_no_distance_field :
    (isInOfficePerimeter (karachi (tickingClock nineOClock) loginDown postUp) 0 (45 / 10000))
      = { inPerimeter := false, distance := 500 } ∧
    (handleLocationTriggeredCheckin (karachi (tickingClock nineOClock) loginDown postUp)
        0 (45 / 10000) (loggedIn (nineOClock + 518400000))).1 =
      { triggered := false, action := none, distance := none,
        reason := some (LocationReason.outsidePerimeter 500 200),
        success := none, time := none, data := none } ∧
    (handleLocationTriggeredCheckin (karachi (tickingClock nineOClock) loginDown postUp)
        0 (45 / 10000) (loggedIn (nineOClock + 518400000))).2.sent = [] ∧
    (handleLocationTriggeredCheckin (karachi (tickingClock nineOClock) loginDown postUp)
        0 (45 / 10000) (loggedIn (nineOClock + 518400000))).2.state.locationConfirmed = false ∧
    (handleLocationTriggeredCheckin
        (karachi (tickingClock (nineOClock + 7200000)) loginDown postUp)
        0 (9 / 10000) (loggedIn (nineOClock + 518400000))).1 =
      { triggered := false, action := none, distance := some 100,
        reason := some LocationReason.outsideWindow,
        success := none, time := none, data := none } := by
  decide!

end AutoCheckinn
